import Mathlib

/-!
Verification of the `fancy-collections` container library.

This file shallowly embeds the parts of the repository that the verified
properties talk about:

* `src/fancy_collections/core.py` — the `Axis` descriptor (`Axis.__get__`,
  `Axis.__set__`), the `IndexMixin` label algebra (`union_index`,
  `shared_index`), and `DictOfPandas` (`empty`, `__eq__`);
* `src/fancy_collections/lib.py` — the equality helpers
  (`index_equals_other`, `series_equals_other`, `dataframe_equals_other`,
  `pd_obj_equals_other`, `other_equals_this`);
* `src/fancy_collections/formatting.py` — the console `Formatter`.

Conventions of the embedding:

* pandas values (`pd.Index`, `pd.Series`, `pd.DataFrame`) are modelled by the
  sum type `PdVal` below; their labels are `Int` lists and their cell payloads
  `Int`s, which is enough for every property proved here (all of them are
  about labels, shapes, ordering and control flow, never about the scalar
  arithmetic of cell values);
* Python dictionaries are modelled as insertion-ordered association lists
  with unique keys; `dict.__setitem__` is `pyDictSet`;
* a raised Python exception is modelled by `PyErr` (its class is `ErrCat`,
  its `str()` the `msg` field); fallible code returns `Option PyErr × state`
  or `Except PyErr result`;
* Python object identity (`a is b`), which a value model cannot observe, is
  passed explicitly as a boolean argument where the source tests it;
* external collaborators (the pandas rendering/ordering internals and the
  `sliceable_dict` base mapping) are modelled at their documented interface,
  as the specification prescribes; each such definition carries a comment
  saying so.
-/

/-- ErrCat is the class of a raised Python exception (the "category" of an
error in the specification's taxonomy). -/
inductive ErrCat where
  | valueError
  | typeError
  | attributeError
deriving DecidableEq

/-- PyErr models a raised Python exception: its class and its `str()` text. -/
structure PyErr where
  cat : ErrCat
  msg : String
deriving DecidableEq

/-- PKey models a Python dictionary key, either a string or an integer (the
two kinds exercised by the repository's tests; what matters is that two
distinct keys can share one `str()` form). -/
inductive PKey where
  | str (s : String)
  | int (n : Nat)
deriving DecidableEq

/-- Dtype models a pandas/numpy element-type tag. -/
inductive Dtype where
  | int64
  | float64
  | obj
deriving DecidableEq

/-- PIndex models a `pandas.Index`: ordered labels plus metadata.  The
`freq` field is `none` when the object has no `freq` attribute at all (a
plain `Index`) and `some f` when the attribute exists with value `f`
(a datetime-like index; `f = none` models `freq is None`). -/
structure PIndex where
  labels : List Int
  dtype : Dtype
  name : Option String
  freq : Option (Option Int)
deriving DecidableEq

/-- PSeries models a `pandas.Series`: values addressed by a row index. -/
structure PSeries where
  values : List Int
  index : PIndex
  dtype : Dtype
  name : Option String
deriving DecidableEq

/-- PDataFrame models a `pandas.DataFrame`: a row-major cell grid with an
independent row index and column index, and one dtype per column. -/
structure PDataFrame where
  values : List (List Int)
  index : PIndex
  columns : PIndex
  dtypes : List Dtype
deriving DecidableEq

/-- PdVal is the value variant a `DictOfPandas` may hold
(`_value_types = (pd.Series, pd.DataFrame, pd.Index)` in `core.py`). -/
inductive PdVal where
  | series (s : PSeries)
  | frame (f : PDataFrame)
  | idx (i : PIndex)
deriving DecidableEq

/-- pIndexEquals models the external `pandas.Index.equals` contract: the two
indexes contain the same elements in the same order (dtype-insensitive). -/
def pIndexEquals (a b : PIndex) : Bool :=
  decide (a.labels = b.labels)

/-- pSeriesEquals models the external `pandas.Series.equals` contract: same
index labels, same values, same dtype. -/
def pSeriesEquals (a b : PSeries) : Bool :=
  decide (a.index.labels = b.index.labels) && decide (a.values = b.values)
    && decide (a.dtype = b.dtype)

/-- pFrameEquals models the external `pandas.DataFrame.equals` contract: same
row labels, same column labels, same cells, same dtypes. -/
def pFrameEquals (a b : PDataFrame) : Bool :=
  decide (a.index.labels = b.index.labels)
    && decide (a.columns.labels = b.columns.labels)
    && decide (a.values = b.values) && decide (a.dtypes = b.dtypes)

/-- pdEmpty models the pandas `.empty` attribute of each variant: a Series is
empty iff it has no values, a DataFrame iff either axis has length zero, an
Index iff it has no labels. -/
def pdEmpty : PdVal → Bool
  | .series s => s.values.isEmpty
  | .frame f => f.index.labels.isEmpty || f.columns.labels.isEmpty
  | .idx i => i.labels.isEmpty

/-- pyDictSet is Python's `d[k] = v` on an insertion-ordered dictionary
modelled as an association list: if the key is present its value is replaced
in place (position kept), otherwise the pair is appended. -/
def pyDictSet {K V : Type} [DecidableEq K]
    (data : List (K × V)) (k : K) (v : V) : List (K × V) :=
  if data.any (fun p => decide (p.1 = k)) then
    data.map (fun p => if p.1 = k then (p.1, v) else p)
  else
    data ++ [(k, v)]

/-- pyDictGet is Python's `d.get(k)` on the association-list dictionary. -/
def pyDictGet {K V : Type} [DecidableEq K]
    (data : List (K × V)) (k : K) : Option V :=
  (data.find? (fun p => decide (p.1 = k))).map Prod.snd

/-- updateSeq models the external `sliceable_dict` `update()` walk at its
documented interface (spec section 6, and `tests/test_axis.py`): the pairs
are set one at a time through the per-item `__setitem_single__` hook; if the
hook rejects a pair the walk stops with that error, leaving the insertions
made so far in place. -/
def updateSeq {V : Type} (hook : PKey → V → Option PyErr) :
    List (PKey × V) → List (PKey × V) → Option PyErr × List (PKey × V)
  | acc, [] => (none, acc)
  | acc, (k, v) :: rest =>
    match hook k v with
    | some e => (some e, acc)
    | none => updateSeq hook (pyDictSet acc k v) rest

/-- axisGet embeds `Axis.__get__` (`core.py` line 24): the container's keys,
in insertion order, materialized as a label sequence. -/
def axisGet {V : Type} (st : List (PKey × V)) : List PKey :=
  st.map Prod.fst

/-- axisSet embeds `Axis.__set__` (`core.py` lines 26-46).  `st` is the
container's `data` before the call, `labels` the new label sequence, `hook`
the per-item restriction hook of the (sub)class; the result is the pair
(raised error if any, container `data` after the call — the `finally` block
always reassigns it).  On a reinsertion failure the local variable `data`
still holds the original dict, so the `finally` block restores `st`. -/
def axisSet {V : Type} (name : String) (hook : PKey → V → Option PyErr)
    (st : List (PKey × V)) (labels : List PKey) :
    Option PyErr × List (PKey × V) :=
  if ¬ labels.Nodup then
    (some ⟨.valueError, name ++ " must not have duplicates."⟩, st)
  else if st.length ≠ labels.length then
    (some ⟨.valueError,
      name ++ " has " ++ Nat.repr st.length ++ " elements, but "
        ++ Nat.repr labels.length ++ " values was passed."⟩, st)
  else
    match updateSeq hook [] (labels.zip (st.map Prod.snd)) with
    | (some e, _) =>
      (some ⟨e.cat, "Cannot set new " ++ name ++ ", because " ++ e.msg⟩, st)
    | (none, newData) => (none, newData)

/-- dictOfPandasHook is the per-item hook of `DictOfPandas` itself:
`_key_types = ()` places no key restriction, and `_value_types` admits every
pandas object — which every `PdVal` is — so the hook always accepts. -/
def dictOfPandasHook : PKey → PdVal → Option PyErr := fun _ _ => none

/-- get_indexes embeds `IndexMixin._get_indexes` (`core.py` lines 50-58): for
each value, its own labels if it is an Index, otherwise its row-index labels.
Only the labels matter to the union/intersection algebra, so the metadata of
the extracted `pd.Index` objects is dropped here. -/
def get_indexes (c : List (PKey × PdVal)) : List (List Int) :=
  c.map fun p =>
    match p.2 with
    | .idx i => i.labels
    | .series s => s.index.labels
    | .frame f => f.index.labels

/-- pdIndexUnion models the external `pandas.Index.union` contract: the
result holds exactly the labels present in either operand (first-seen order;
the exact ordering policy is pandas-internal and irrelevant to the
containment laws proved below). -/
def pdIndexUnion (a b : List Int) : List Int :=
  a ++ b.filter (fun x => decide (x ∉ a))

/-- pdIndexInter models the external `pandas.Index.intersection` contract:
the result holds exactly the labels present in both operands. -/
def pdIndexInter (a b : List Int) : List Int :=
  a.filter (fun x => decide (x ∈ b))

/-- union_index embeds `IndexMixin.union_index` (`core.py` lines 60-64):
`functools.reduce(pd.Index.union, indexes)` when there are any indexes, an
empty index otherwise.  (`reduce` over a nonempty list is a left fold of the
tail over the head; the source calls `_get_indexes` twice, with the same
result both times since it is pure.) -/
def union_index (c : List (PKey × PdVal)) : List Int :=
  match get_indexes c with
  | [] => []
  | x :: xs => xs.foldl pdIndexUnion x

/-- shared_index embeds `IndexMixin.shared_index` (`core.py` lines 66-70). -/
def shared_index (c : List (PKey × PdVal)) : List Int :=
  match get_indexes c with
  | [] => []
  | x :: xs => xs.foldl pdIndexInter x

/-- dictOfPandas_empty embeds the `DictOfPandas.empty` property (`core.py`
line 128): `len(self) == 0 or all(o.empty for o in self.values())`. -/
def dictOfPandas_empty (c : List (PKey × PdVal)) : Bool :=
  decide (c.length = 0) || c.all (fun p => pdEmpty p.2)

/-- index_equals_other embeds `lib.index_equals_other` (`lib.py` lines
27-29): `other` must also be an Index and `this.equals(other)`. -/
def index_equals_other (this : PIndex) (other : PdVal) : Bool :=
  match other with
  | .idx o => pIndexEquals this o
  | _ => false

/-- series_equals_other embeds `lib.series_equals_other` (`lib.py` lines
32-38): `other` must also be a Series, with equal index and equal content. -/
def series_equals_other (this : PSeries) (other : PdVal) : Bool :=
  match other with
  | .series o => pIndexEquals this.index o.index && pSeriesEquals this o
  | _ => false

/-- dataframe_equals_other embeds `lib.dataframe_equals_other` (`lib.py`
lines 41-48): `other` must also be a DataFrame, with equal columns, equal
index and equal content. -/
def dataframe_equals_other (this : PDataFrame) (other : PdVal) : Bool :=
  match other with
  | .frame o =>
    pIndexEquals this.columns o.columns && pIndexEquals this.index o.index
      && pFrameEquals this o
  | _ => false

/-- pd_obj_equals_other embeds `lib.pd_obj_equals_other` (`lib.py` lines
51-61), dispatching on the variant of `this`.  The `TypeError` branch for a
non-pandas `this` is unreachable here because `PdVal` covers exactly the
admitted value types. -/
def pd_obj_equals_other (this other : PdVal) : Bool :=
  match this with
  | .frame f => dataframe_equals_other f other
  | .series s => series_equals_other s other
  | .idx i => index_equals_other i other

/-- EqOther is the comparand of `DictOfPandas.__eq__`: either a dict-like
object (a `dict` or `SliceDict`, with its own insertion order) or anything
else. -/
inductive EqOther where
  | dictLike (d : List (PKey × PdVal))
  | notDict

/-- keysViewEq models Python's `KeysView.__eq__`, which compares key views as
sets (insertion order is ignored). -/
def keysViewEq (a b : List PKey) : Bool :=
  a.all (fun k => decide (k ∈ b)) && b.all (fun k => decide (k ∈ a))

/-- dictOfPandas_eq embeds `DictOfPandas.__eq__` (`core.py` lines 324-338).
`selfIsOther` is the result of the Python identity test `self is other`
(necessarily false when `other` is not a dict).  After the set-wise key
comparison the source zips `self.values()` with `other.values()` — both in
insertion order — and requires `pd_obj_equals_other` on every pair
(`next(filter(lambda e: not eq(*e), values), True) is True`). -/
def dictOfPandas_eq (self : List (PKey × PdVal)) (other : EqOther)
    (selfIsOther : Bool) : Bool :=
  if selfIsOther then true
  else
    match other with
    | .notDict => false
    | .dictLike o =>
      if ¬ keysViewEq (self.map Prod.fst) (o.map Prod.fst) then false
      else
        ((self.map Prod.snd).zip (o.map Prod.snd)).all fun p =>
          pd_obj_equals_other p.1 p.2

/-- pyLookup is Python's `d[k]` as a total lookup (used only to state
theorems about which value a key is bound to). -/
def pyLookup {V : Type} (data : List (PKey × V)) (k : PKey) : Option V :=
  pyDictGet data k

/-- EqOptions bundles the keyword arguments of `lib.other_equals_this`
(`lib.py` lines 64-75) with their source defaults in `defaultEqOptions`;
`none` stands for Python `None` on the tri-state flags. -/
structure EqOptions where
  check_type : Bool
  check_values : Bool
  check_index : Option Bool
  check_columns : Option Bool
  check_dtypes : Bool
  check_index_dtype : Bool
  check_columns_dtype : Bool
  check_names : Bool
  check_freq : Option Bool

/-- defaultEqOptions mirrors the parameter defaults of `other_equals_this`. -/
def defaultEqOptions : EqOptions :=
  { check_type := true
    check_values := true
    check_index := none
    check_columns := none
    check_dtypes := false
    check_index_dtype := false
    check_columns_dtype := false
    check_names := false
    check_freq := none }

/-- otruthy is Python truthiness of a tri-state flag (`None` is falsy). -/
def otruthy : Option Bool → Bool
  | none => false
  | some b => b

/-- hasFreqAttr models `hasattr(v, "freq")`: only datetime-like indexes
carry the attribute; plain indexes, series and frames do not. -/
def hasFreqAttr : PdVal → Bool
  | .idx i => i.freq.isSome
  | _ => false

/-- hasIndexAttr models `hasattr(v, "index")`. -/
def hasIndexAttr : PdVal → Bool
  | .series _ => true
  | .frame _ => true
  | .idx _ => false

/-- hasColumnsAttr models `hasattr(v, "columns")`. -/
def hasColumnsAttr : PdVal → Bool
  | .frame _ => true
  | _ => false

/-- getIndexAttr models `getattr(v, "index")` (`none` = attribute absent,
so the Python access would raise `AttributeError`). -/
def getIndexAttr : PdVal → Option PIndex
  | .series s => some s.index
  | .frame f => some f.index
  | .idx _ => none

/-- getColumnsAttr models `getattr(v, "columns")`. -/
def getColumnsAttr : PdVal → Option PIndex
  | .frame f => some f.columns
  | _ => none

/-- getFreqAttr models `getattr(v, "freq")`. -/
def getFreqAttr : PdVal → Option (Option Int)
  | .idx i => i.freq
  | _ => none

/-- getNamesAttr models `getattr(v, "names")`: only `pd.Index` has a `names`
attribute (the one-element list holding its `name`). -/
def getNamesAttr : PdVal → Option (List (Option String))
  | .idx i => some [i.name]
  | _ => none

/-- sameVariant models `isinstance(other, type(this))` over the three
concrete pandas classes. -/
def sameVariant : PdVal → PdVal → Bool
  | .series _, .series _ => true
  | .frame _, .frame _ => true
  | .idx _, .idx _ => true
  | _, _ => false

/-- eqVal is the `eq(this, other, None)` case of the inner helper of
`other_equals_this` (`lib.py` lines 127-141): identity, else the pandas
`equals` method (every variant has one), with cross-variant comparisons
yielding false (pandas `equals` rejects a different type; the raw `==`
fallback branch is unreachable for values that have `equals`). -/
def eqVal : PdVal → PdVal → Bool
  | .series a, .series b => pSeriesEquals a b
  | .frame a, .frame b => pFrameEquals a b
  | .idx a, .idx b => pIndexEquals a b
  | _, _ => false

/-- DtypesVal is the value of the `dtype`/`dtypes` attribute: a single tag
for a Series or Index, one tag per column for a DataFrame. -/
inductive DtypesVal where
  | single (d : Dtype)
  | multi (ds : List Dtype)
deriving DecidableEq

/-- dtypesAttrOfThis is the attribute the `check_dtypes` block of
`other_equals_this` picks on `this` by probing `"dtypes"` then `"dtype"`:
a Series answers to `dtypes` (alias of its single dtype), a DataFrame to
`dtypes`, an Index only to `dtype`.  Every variant has one, so the for-else
`AttributeError` of the source is unreachable for pandas values. -/
def dtypesAttrOfThis : PdVal → DtypesVal
  | .series s => .single s.dtype
  | .frame f => .multi f.dtypes
  | .idx i => .single i.dtype

/-- dtypesNameIsPlural records which attribute name that probe chose
(true = `"dtypes"`, false = `"dtype"`). -/
def dtypesNameIsPlural : PdVal → Bool
  | .idx _ => false
  | _ => true

/-- getDtypesByName models `getattr(other, name)` for the attribute name
chosen on `this`: a Series has both spellings, a DataFrame only `dtypes`,
an Index only `dtype`.  An absent attribute makes the inner `eq` helper
return false (`hasattr(b, name)` fails). -/
def getDtypesByName (plural : Bool) : PdVal → Option DtypesVal
  | .series s => some (.single s.dtype)
  | .frame f => if plural then some (.multi f.dtypes) else none
  | .idx i => if plural then none else some (.single i.dtype)

/-- other_equals_this embeds `lib.other_equals_this` (`lib.py` lines
64-185) over the value model.  `thisIsOther` is the Python identity test
`this is other`.  The result is `Except.error` when the source raises,
`Except.ok (some b)` when it executes `return b`, and — crucially —
`Except.ok none` when control falls off the end of the function body
(Python's implicit `return None`). -/
def other_equals_this (this other : PdVal) (o : EqOptions)
    (thisIsOther : Bool) : Except PyErr (Option Bool) := do
  let cf := o.check_freq
  let ci := o.check_index
  let (cf, ci) :=
    if cf = none ∧ hasFreqAttr this then
      (some true, if ci = none then some false else ci)
    else (cf, ci)
  let ci := if ci = none ∧ hasIndexAttr this then some true else ci
  let cc :=
    if o.check_columns = none ∧ hasColumnsAttr this then some true
    else o.check_columns
  if thisIsOther then
    return some true
  if o.check_type ∧ ¬ sameVariant this other then
    return some false
  if o.check_values ∧ ¬ eqVal this other then
    return some false
  if otruthy ci then
    match getIndexAttr this with
    | none =>
      -- `getattr(this, "index")` raises on a plain Index
      throw ⟨.attributeError, "index"⟩
    | some ai =>
      match getIndexAttr other with
      | none => return some false
      | some bi =>
        if ¬ pIndexEquals ai bi then
          return some false
        if o.check_index_dtype ∧ ¬ (ai.dtype = bi.dtype) then
          return some false
        if otruthy cf then
          -- freqs = hasattr(this.index, "freq") + hasattr(other.index, "freq")
          let freqs := (if ai.freq.isSome then 1 else 0)
            + (if bi.freq.isSome then 1 else 0)
          if freqs = 1 ∨ (freqs = 2 ∧ ¬ (ai.freq = bi.freq)) then
            return some false
  else
    if otruthy cf then
      match getFreqAttr this with
      | none => throw ⟨.attributeError, "freq"⟩
      | some af =>
        match getFreqAttr other with
        | none => return some false
        | some bf =>
          if ¬ (af = bf) then
            return some false
  if otruthy cc then
    match getColumnsAttr this with
    | none => throw ⟨.attributeError, "columns"⟩
    | some ac =>
      match getColumnsAttr other with
      | none => return some false
      | some bc =>
        if ¬ pIndexEquals ac bc then
          return some false
        if o.check_columns_dtype ∧ ¬ (ac.dtype = bc.dtype) then
          return some false
  if o.check_dtypes then
    let a := dtypesAttrOfThis this
    match getDtypesByName (dtypesNameIsPlural this) other with
    | none => return some false
    | some b =>
      if ¬ (a = b) then
        return some false
  if o.check_names then
    match getNamesAttr this with
    | none => throw ⟨.attributeError, "names"⟩
    | some an =>
      match getNamesAttr other with
      | none => return some false
      | some bn =>
        if ¬ (an = bn) then
          return some false
  return none

/-- splitNlChars splits a character list at every newline, keeping empty
segments (the semantics of Python `str.split("\n")` at the character
level; the formatter's strings use no other line terminator). -/
def splitNlChars : List Char → List (List Char)
  | [] => [[]]
  | c :: rest =>
    if c = '\n' then [] :: splitNlChars rest
    else
      match splitNlChars rest with
      | [] => [[c]]
      | h :: t => (c :: h) :: t

/-- pySplitlinesChars is Python `str.splitlines` at the character level: like
the newline split, but a trailing newline does not contribute a final empty
segment, and the empty string has no lines at all. -/
def pySplitlinesChars (l : List Char) : List (List Char) :=
  let ps := splitNlChars l
  if ps.getLast? = some [] then ps.dropLast else ps

/-- pySplitlines is Python `str.splitlines` on strings. -/
def pySplitlines (s : String) : List String :=
  (pySplitlinesChars s.data).map List.asString

/-- pyJoinNl is Python `"\n".join(lines)`. -/
def pyJoinNl : List String → String
  | [] => ""
  | [s] => s
  | s :: rest => s ++ "\n" ++ pyJoinNl rest

/-- maxLen embeds `Formatter._get_maxlen` (`formatting.py` lines 178-179):
the maximum length over the given strings.  Python `max` raises on an empty
collection; every call site passes a nonempty list, over which this fold
agrees with it. -/
def maxLen (ls : List String) : Nat :=
  ls.foldl (fun m s => max m s.length) 0

/-- spacesStr is a run of `n` spaces. -/
def spacesStr (n : Nat) : String :=
  List.asString (List.replicate n ' ')

/-- pyLjust is Python `str.ljust`: pad on the right up to the width (no-op
when the string is already as wide). -/
def pyLjust (s : String) (w : Nat) : String :=
  s ++ spacesStr (w - s.length)

/-- pyRjust is Python `str.rjust`: pad on the left up to the width. -/
def pyRjust (s : String) (w : Nat) : String :=
  spacesStr (w - s.length) ++ s

/-- pyCenter is CPython `str.center`: with `marg` the total padding, the
left pad is `marg / 2 + (marg & width & 1)` and the rest goes right. -/
def pyCenter (s : String) (w : Nat) : String :=
  if w ≤ s.length then s
  else
    let marg := w - s.length
    let left := marg / 2 + (marg &&& w &&& 1)
    spacesStr left ++ s ++ spacesStr (marg - left)

/-- pyJustifyLeft embeds `Formatter._justify` (`formatting.py` lines
182-218) for its only use in the source (a newline-joined string, default
width, left site): split into lines, left-justify each to the longest
length, join back. -/
def pyJustifyLeft (s : String) : String :=
  let lines := pySplitlines s
  let w := maxLen lines
  pyJoinNl (lines.map (fun l => pyLjust l w))

/-- pdClassName is `obj.__class__.__name__` for the three value variants. -/
def pdClassName : PdVal → String
  | .series _ => "Series"
  | .frame _ => "DataFrame"
  | .idx _ => "Index"

/-- stringify_empty_class embeds `Formatter._stringify_empty_class`
(`formatting.py` lines 173-175). -/
def stringify_empty_class (v : PdVal) : String :=
  "Empty " ++ pdClassName v

/-- ExtRender stands for the external pandas tabular renderers the formatter
delegates to for values that are NOT empty (`df.to_string(...)`,
`series.to_frame(...).to_string(...)`, the Index-as-Series rendering), with
the truncation options already applied.  The empty-value branches below,
which the verified properties are about, never consult it. -/
structure ExtRender where
  seriesStr : PSeries → String
  frameStr : PDataFrame → String
  indexStr : PIndex → String

/-- stringify_DataFrame embeds `Formatter._stringify_DataFrame`
(`formatting.py` lines 94-107): an empty frame renders as the justified
`"Empty DataFrame\n rows:    {r}\n columns: {c}\n"` with `r, c = df.shape`;
any other frame is rendered by pandas. -/
def stringify_DataFrame (ext : ExtRender) (f : PDataFrame) : String :=
  if pdEmpty (.frame f) then
    pyJustifyLeft (stringify_empty_class (.frame f) ++ "\n"
      ++ (" rows:    " ++ Nat.repr f.index.labels.length) ++ "\n"
      ++ (" columns: " ++ Nat.repr f.columns.labels.length) ++ "\n")
  else ext.frameStr f

/-- stringify_Series embeds `Formatter._stringify_Series` (`formatting.py`
lines 109-119): an empty series renders as the justified
`"Empty Series\n rows: {len(s)}\n"`; any other series is rendered by
pandas. -/
def stringify_Series (ext : ExtRender) (s : PSeries) : String :=
  if pdEmpty (.series s) then
    pyJustifyLeft (stringify_empty_class (.series s)
      ++ "\n rows: " ++ Nat.repr s.values.length ++ "\n")
  else ext.seriesStr s

/-- stringify_Index embeds `Formatter._stringify_Index` (`formatting.py`
lines 121-125): an empty index renders as the bare `"Empty Index"` (note:
no shape metadata); any other index is rendered by pandas. -/
def stringify_Index (ext : ExtRender) (i : PIndex) : String :=
  if pdEmpty (.idx i) then stringify_empty_class (.idx i)
  else ext.indexStr i

/-- stringify embeds `Formatter.stringify` (`formatting.py` lines 85-92);
the trailing `str(obj)` fallback is unreachable for the admitted value
types. -/
def stringify (ext : ExtRender) : PdVal → String
  | .idx i => stringify_Index ext i
  | .series s => stringify_Series ext s
  | .frame f => stringify_DataFrame ext f

/-- pkeyStr models Python `str(key)` on container keys, the body of
`Formatter.key_to_string` (`formatting.py` lines 27-45). -/
def pkeyStr : PKey → String
  | .str s => s
  | .int n => Nat.repr n

/-- collectObjectsAux embeds the first loop of `Formatter.to_string`
(`formatting.py` lines 51-57): walk the container's items in order,
stringify key and value, and store the value's rendered lines in the
`objects` dict and its column width in the `widths` dict — both keyed by the
STRINGIFIED key, so a later item whose key stringifies the same overwrites
the earlier one's entry. -/
def collectObjectsAux (ext : ExtRender) :
    List (PKey × PdVal) → List (String × List String) → List (String × Nat) →
    List (String × List String) × List (String × Nat)
  | [], objs, wids => (objs, wids)
  | p :: rest, objs, wids =>
    let k := pkeyStr p.1
    let lines := pySplitlines (stringify ext p.2)
    collectObjectsAux ext rest (pyDictSet objs k lines)
      (pyDictSet wids k (maxLen (lines ++ [k])))

/-- collectObjects runs the object-collection loop from empty dicts. -/
def collectObjects (ext : ExtRender) (items : List (PKey × PdVal)) :
    List (String × List String) × List (String × Nat) :=
  collectObjectsAux ext items [] []

/-- setAdd is Python `set.add` on a set modelled as a duplicate-free list
(membership is all the formatter asks of its key sets). -/
def setAdd (s : List String) (k : String) : List String :=
  if k ∈ s then s else s ++ [k]

/-- selectFrontBack embeds the front/back greedy loop of
`Formatter.to_string` (`formatting.py` lines 61-70): walk the keys from both
ends at once, growing a running width; a front key is kept while the running
width stays below the usable display width, then the matching back key is
added to the same running width and kept under the same test. -/
def selectFrontBack (keys : List String) (widths : List (String × Nat))
    (dw : Nat) : List String × List String :=
  let r := (keys.zip keys.reverse).foldl
    (fun st kk =>
      let l1 := st.1 + ((pyDictGet widths kk.1).getD 0)
      let front := if l1 < dw then setAdd st.2.1 kk.1 else st.2.1
      let l2 := l1 + ((pyDictGet widths kk.2).getD 0)
      let back := if l2 < dw then setAdd st.2.2 kk.2 else st.2.2
      (l2, front, back))
    (0, [], [])
  r.2

/-- RenderCol is one entry of `Formatter.__to_render`: stringified key,
rendered lines, column width (the generator of the source is realized by
indexed access plus blank padding in `renderBodyCell`). -/
structure RenderCol where
  key : String
  lines : List String
  width : Nat

/-- formatterAdd embeds `Formatter._add` (`formatting.py` lines 161-164). -/
def formatterAdd (cols : List RenderCol) (k : String) (lines : List String) :
    List RenderCol :=
  cols ++ [⟨k, lines, maxLen (lines ++ [k])⟩]

/-- renderHeaderRow embeds `Formatter.__make_header`: each key
right-justified to its column width, joined by `" | "`. -/
def renderHeaderRow (cols : List RenderCol) : String :=
  (cols.foldl (fun acc c => acc ++ pyRjust c.key c.width ++ " | ") "") ++ "\n"

/-- renderSepRow embeds `Formatter.__make_seperator_row`: `"="` repeated to
each column width, joined by `" | "`. -/
def renderSepRow (cols : List RenderCol) : String :=
  (cols.foldl
    (fun acc c => acc ++ List.asString (List.replicate c.width '=') ++ " | ")
    "") ++ "\n"

/-- renderBodyCell is one column's contribution to body row `i`: its `i`-th
line centered to the column width while lines remain, blanks of the same
width once the column is exhausted (`Formatter.__iter4ever`). -/
def renderBodyCell (c : RenderCol) (i : Nat) : String :=
  match c.lines.get? i with
  | some l => pyCenter l c.width
  | none => spacesStr c.width

/-- renderBody embeds the `Formatter.__make_body_row` loop of
`Formatter._render`: rows are emitted until every column is exhausted, i.e.
exactly `max` rows where `max` is the largest line count of any column. -/
def renderBody (cols : List RenderCol) : String :=
  let m := cols.foldl (fun acc c => max acc c.lines.length) 0
  ((List.range m).map (fun i =>
    (cols.foldl (fun acc c => acc ++ renderBodyCell c i ++ " | ") "")
      ++ "\n")).foldl (fun a b => a ++ b) ""

/-- formatterRender embeds `Formatter._render` (`formatting.py` lines
127-135): header row, separator row, body rows. -/
def formatterRender (cols : List RenderCol) : String :=
  renderHeaderRow cols ++ renderSepRow cols ++ renderBody cols

/-- listSetEq compares two lists as sets (Python `set(a) == set(b)`). -/
def listSetEq (a b : List String) : Bool :=
  a.all (fun k => decide (k ∈ b)) && b.all (fun k => decide (k ∈ a))

/-- formatter_to_string embeds `Formatter.to_string` (`formatting.py` lines
47-83) for a `DictOfPandas`.  `dw` is the usable display width, the
`int(shutil.get_terminal_size().columns * 0.8)` of the source (terminal
detection is environmental, so the computed width is a parameter here).
An empty container renders as `"Empty DictOfPandas"`; otherwise the
collected columns are emitted in order: the front set, a `"..."` placeholder
when front and back neither overlap nor jointly cover all keys, then the
back-set columns not already emitted. -/
def formatter_to_string (ext : ExtRender) (dw : Nat)
    (c : List (PKey × PdVal)) : String :=
  if c.length = 0 then "Empty DictOfPandas"
  else
    let oc := collectObjects ext c
    let objects := oc.1
    let widths := oc.2
    let keys := widths.map Prod.fst
    let fb := selectFrontBack keys widths dw
    let front := fb.1
    let back := fb.2
    let cols1 := (objects.filter (fun p => decide (p.1 ∈ front))).foldl
      (fun acc p => formatterAdd acc p.1 p.2) []
    let cols2 :=
      if front.all (fun k => decide (k ∉ back)) ∧ ¬ listSetEq (front ++ back) keys then
        formatterAdd cols1 "..." ["..."]
      else cols1
    let cols3 := (objects.filter
        (fun p => decide (p.1 ∈ back) && decide (p.1 ∉ front))).foldl
      (fun acc p => formatterAdd acc p.1 p.2) cols2
    formatterRender cols3

/-- extZero is a concrete stand-in for the external pandas renderers, used
to instantiate theorems whose containers hold only empty values (for which
the renderers are never consulted). -/
def extZero : ExtRender :=
  ⟨fun _ => "", fun _ => "", fun _ => ""⟩



/-! ## Shared lemmas -/

/-- digitChar_ne_nl: no digit character rendered by `Nat.digitChar` is a
newline. -/
theorem digitChar_ne_nl (k : Nat) : Nat.digitChar k ≠ '\n' := by
  by_cases hk : k < 16
  · interval_cases k <;> decide
  · have h : Nat.digitChar k = '*' := by
      unfold Nat.digitChar
      iterate 16 rw [if_neg (by omega)]
    rw [h]; decide

/-- toDigitsCore_mem: every character of `Nat.toDigitsCore` output comes
from the accumulator or is a digit character. -/
theorem toDigitsCore_mem (b : Nat) :
    ∀ (fuel n : Nat) (acc : List Char) (c : Char),
      c ∈ Nat.toDigitsCore b fuel n acc → c ∈ acc ∨ ∃ m, c = Nat.digitChar m := by
  intro fuel
  induction fuel with
  | zero => intro n acc c h; exact Or.inl h
  | succ fuel ih =>
    intro n acc c h
    unfold Nat.toDigitsCore at h
    by_cases h0 : n / b = 0
    · rw [if_pos h0] at h
      rcases List.mem_cons.mp h with h | h
      · exact Or.inr ⟨n % b, h⟩
      · exact Or.inl h
    · rw [if_neg h0] at h
      rcases ih (n / b) ((n % b).digitChar :: acc) c h with h | h
      · rcases List.mem_cons.mp h with h | h
        · exact Or.inr ⟨n % b, h⟩
        · exact Or.inl h
      · exact Or.inr h

/-- natRepr_no_nl: the decimal rendering of a natural number contains no
newline character. -/
theorem natRepr_no_nl (n : Nat) : '\n' ∉ (Nat.repr n).data := by
  intro hmem
  rcases toDigitsCore_mem 10 (n + 1) n [] '\n' hmem with h | ⟨m, h⟩
  · exact absurd h (List.not_mem_nil _)
  · exact digitChar_ne_nl m h.symm

/-- pyDictSet_not_mem: setting a key absent from the dictionary appends the
pair. -/
theorem pyDictSet_not_mem {K V : Type} [DecidableEq K]
    (d : List (K × V)) (k : K) (v : V) (h : k ∉ d.map Prod.fst) :
    pyDictSet d k v = d ++ [(k, v)] := by
  unfold pyDictSet
  rw [if_neg]
  intro hc
  obtain ⟨p, hp, he⟩ := List.any_eq_true.mp hc
  exact h (List.mem_map.mpr ⟨p, hp, of_decide_eq_true he⟩)

/-- updateSeq_accepts: when the hook accepts every pair and the keys (of the
accumulator and of the batch together) are distinct, the update walk
succeeds and appends the batch in order. -/
theorem updateSeq_accepts {V : Type} (hook : PKey → V → Option PyErr) :
    ∀ (pairs acc : List (PKey × V)),
      (∀ p ∈ pairs, hook p.1 p.2 = none) →
      (acc.map Prod.fst ++ pairs.map Prod.fst).Nodup →
      updateSeq hook acc pairs = (none, acc ++ pairs) := by
  intro pairs
  induction pairs with
  | nil => intro acc _ _; simp [updateSeq]
  | cons p rest ih =>
    intro acc hacc hnd
    obtain ⟨k, v⟩ := p
    have hk : hook k v = none := hacc (k, v) (List.mem_cons_self _ _)
    have hkn : k ∉ acc.map Prod.fst := by
      intro hmem
      obtain ⟨-, -, hdisj⟩ := List.nodup_append.mp hnd
      exact hdisj hmem (by simp)
    rw [updateSeq, hk, pyDictSet_not_mem _ _ _ hkn, ih]
    · simp
    · intro q hq; exact hacc q (List.mem_cons_of_mem _ hq)
    · simpa [List.append_assoc] using hnd

/-! ## Axis descriptor claims -/

/-- wIdx is a small sample pandas Index value for concrete instances. -/
def wIdx (n : Int) : PdVal := .idx ⟨[n], .int64, none, none⟩

/-- hookStrOnly models the test subclass `RestrictedChild` of
`tests/test_axis.py`, whose `__setitem_single__` hook rejects every
non-string key with a `TypeError`. -/
def hookStrOnly : PKey → PdVal → Option PyErr := fun k _ =>
  match k with
  | .str _ => none
  | .int _ => some ⟨.typeError, ""⟩

/-- wSt is a three-entry sample container. -/
def wSt : List (PKey × PdVal) :=
  [(.str "a", wIdx 0), (.str "b", wIdx 1), (.str "c", wIdx 2)]

/-- wSt2 is a two-entry sample container. -/
def wSt2 : List (PKey × PdVal) := [(.str "a", wIdx 0), (.str "b", wIdx 1)]

/-- C1: whenever the reinsertion walk of `Axis.__set__` fails partway (for
example because a subclass per-item hook rejects some new key), the
container's data after the failed call is exactly the pre-call data — same
keys, same order, same values — and the surfaced error re-wraps the
underlying one, preserving its category. -/
theorem C1_axis_set_rollback {V : Type} (name : String)
    (hook : PKey → V → Option PyErr) (st : List (PKey × V))
    (labels : List PKey) (e : PyErr) (partialData : List (PKey × V))
    (hnd : labels.Nodup) (hlen : labels.length = st.length)
    (hfail : updateSeq hook [] (labels.zip (st.map Prod.snd))
      = (some e, partialData)) :
    axisSet name hook st labels
      = (some ⟨e.cat, "Cannot set new " ++ name ++ ", because " ++ e.msg⟩,
         st) := by
  unfold axisSet
  rw [if_neg (by simpa using hnd), if_neg (by omega), hfail]

/-- C1 witness: a hook that only accepts string keys rejects the third new
label `9999`; the two already-inserted entries are discarded and the
original three-entry container survives the call unchanged, behind a
re-wrapped `TypeError`. -/
theorem C1_axis_set_rollback_witness :
    axisSet "columns" hookStrOnly wSt [.str "x", .str "y", .int 9999]
      = (some ⟨.typeError, "Cannot set new columns, because "⟩, wSt) :=
  C1_axis_set_rollback "columns" hookStrOnly wSt
    [.str "x", .str "y", .int 9999] ⟨.typeError, ""⟩
    [(.str "x", wIdx 0), (.str "y", wIdx 1)]
    (by decide) (by decide) (by rfl)

/-- C4: on a `DictOfPandas` (whose own hook accepts every key), setting the
axis to a duplicate-free label sequence of matching length succeeds; reading
the axis back yields exactly the new labels, and the i-th value (in
iteration order) is now associated with the i-th new label while the value
sequence is untouched. -/
theorem C4_axis_roundtrip (st : List (PKey × PdVal)) (labels : List PKey)
    (hnd : labels.Nodup) (hlen : labels.length = st.length) :
    axisSet "columns" dictOfPandasHook st labels
        = (none, labels.zip (st.map Prod.snd)) ∧
      axisGet (labels.zip (st.map Prod.snd)) = labels ∧
      (labels.zip (st.map Prod.snd)).map Prod.snd = st.map Prod.snd := by
  have hkeys : (labels.zip (st.map Prod.snd)).map Prod.fst = labels :=
    List.map_fst_zip _ _ (by simp [hlen])
  refine ⟨?_, hkeys, List.map_snd_zip _ _ (by simp [hlen])⟩
  unfold axisSet
  rw [if_neg (by simpa using hnd), if_neg (by omega),
    updateSeq_accepts dictOfPandasHook _ _ (fun _ _ => rfl)
      (by simpa [hkeys] using hnd)]
  simp

/-- C4 witness: renaming the two keys of a concrete container to
`["x", "y"]` succeeds, the axis reads back as `["x", "y"]`, and the values
keep their positions. -/
theorem C4_axis_roundtrip_witness :
    ([PKey.str "x", PKey.str "y"].Nodup
        ∧ [PKey.str "x", PKey.str "y"].length = wSt2.length) ∧
      (axisSet "columns" dictOfPandasHook wSt2 [.str "x", .str "y"]
          = (none, [PKey.str "x", PKey.str "y"].zip (wSt2.map Prod.snd)) ∧
        axisGet ([PKey.str "x", PKey.str "y"].zip (wSt2.map Prod.snd))
          = [PKey.str "x", PKey.str "y"] ∧
        ([PKey.str "x", PKey.str "y"].zip (wSt2.map Prod.snd)).map Prod.snd
          = wSt2.map Prod.snd) :=
  ⟨⟨by decide, by decide⟩,
   C4_axis_roundtrip wSt2 [.str "x", .str "y"] (by decide) (by decide)⟩

/-- C5 counterexample: the claim says every call with a label count
different from the key count fails with the Length Mismatch error reporting
both counts; but `Axis.__set__` checks duplicates FIRST, so the two-element
duplicated label list `[1, 1]` against a three-key container fails with the
duplicates message, which reports no count at all (it contains no digit). -/
theorem C5_counterexample :
    axisSet "columns" dictOfPandasHook wSt [.int 1, .int 1]
        = (some ⟨.valueError, "columns must not have duplicates."⟩, wSt) ∧
      ("columns must not have duplicates.".data.all fun ch => !ch.isDigit)
        = true := by
  exact ⟨rfl, by decide⟩

/-- C5 (amended): for every DUPLICATE-FREE label sequence whose length
differs from the container's key count, the setter fails with the Length
Mismatch `ValueError` whose message reports both counts, and the container
is not mutated.  (When the labels also contain duplicates, the Constraint
Violation error takes precedence, as the counterexample shows.) -/
theorem C5_length_mismatch {V : Type} (name : String)
    (hook : PKey → V → Option PyErr) (st : List (PKey × V))
    (labels : List PKey) (hnd : labels.Nodup)
    (hlen : labels.length ≠ st.length) :
    axisSet name hook st labels
        = (some ⟨.valueError,
            name ++ " has " ++ Nat.repr st.length ++ " elements, but "
              ++ Nat.repr labels.length ++ " values was passed."⟩, st) ∧
      (∃ x y : String,
        name ++ " has " ++ Nat.repr st.length ++ " elements, but "
            ++ Nat.repr labels.length ++ " values was passed."
          = x ++ Nat.repr st.length ++ y) ∧
      (∃ x y : String,
        name ++ " has " ++ Nat.repr st.length ++ " elements, but "
            ++ Nat.repr labels.length ++ " values was passed."
          = x ++ Nat.repr labels.length ++ y) := by
  refine ⟨?_,
    ⟨name ++ " has ",
     " elements, but " ++ Nat.repr labels.length ++ " values was passed.",
     by simp [String.append_assoc]⟩,
    ⟨name ++ " has " ++ Nat.repr st.length ++ " elements, but ",
     " values was passed.", by simp [String.append_assoc]⟩⟩
  unfold axisSet
  rw [if_neg (by simpa using hnd), if_pos (by omega)]

/-- C5 witness: two fresh labels against a three-key container produce the
Length Mismatch message naming 3 and 2, with the container untouched. -/
theorem C5_length_mismatch_witness :
    ([PKey.int 1, PKey.int 2].Nodup
        ∧ [PKey.int 1, PKey.int 2].length ≠ wSt.length) ∧
      (axisSet "columns" dictOfPandasHook wSt [.int 1, .int 2]
          = (some ⟨.valueError,
              "columns" ++ " has " ++ Nat.repr wSt.length
                ++ " elements, but " ++ Nat.repr [PKey.int 1, PKey.int 2].length
                ++ " values was passed."⟩, wSt) ∧
        (∃ x y : String,
          "columns" ++ " has " ++ Nat.repr wSt.length ++ " elements, but "
              ++ Nat.repr [PKey.int 1, PKey.int 2].length ++ " values was passed."
            = x ++ Nat.repr wSt.length ++ y) ∧
        (∃ x y : String,
          "columns" ++ " has " ++ Nat.repr wSt.length ++ " elements, but "
              ++ Nat.repr [PKey.int 1, PKey.int 2].length ++ " values was passed."
            = x ++ Nat.repr [PKey.int 1, PKey.int 2].length ++ y)) :=
  ⟨⟨by decide, by decide⟩,
   C5_length_mismatch "columns" dictOfPandasHook wSt [.int 1, .int 2]
     (by decide) (by decide)⟩

/-! ## Equality claims -/

/-- wSeries is a sample non-empty Series (two values, integer index). -/
def wSeries : PSeries := ⟨[1, 2], ⟨[0, 1], .int64, none, none⟩, .int64, none⟩

/-- C2: the claim states that when every enabled facet passes on two
distinct objects, `other_equals_this` yields a truthy result.  In the source
the function has no final `return`, so the all-facets-pass path falls off
the end of the body and returns Python `None` — which is FALSY, although the
docstring declares `Returns: bool`.  Evaluated on two structurally equal but
distinct Series (identity test false, every default facet passes), the
embedded function produces the fall-through `None`, whose truthiness is
`false`: a caller treating the result as a boolean observes failure. -/
theorem C2_fallthrough_none :
    other_equals_this (.series wSeries) (.series wSeries) defaultEqOptions
        false = .ok none
      ∧ otruthy none = false :=
  ⟨rfl, rfl⟩

/-- c3self and c3other hold the same key→value mapping with opposite
insertion orders. -/
def c3self : List (PKey × PdVal) := [(.str "a", wIdx 0), (.str "b", wIdx 1)]

/-- c3other is `c3self` inserted in the opposite order. -/
def c3other : List (PKey × PdVal) := [(.str "b", wIdx 1), (.str "a", wIdx 0)]

/-- C3: the claim (and the "equivalent code" comment inside `__eq__`
itself, which compares by key) says containers with the same key→value
mapping are equal regardless of insertion order.  The implementation
compares the key views as sets but then zips `self.values()` with
`other.values()` POSITIONALLY, so the same mapping in a different insertion
order compares unequal: here every key is bound to the same value in both
containers, yet `__eq__` yields `false`. -/
theorem C3_eq_order_sensitive :
    keysViewEq (c3self.map Prod.fst) (c3other.map Prod.fst) = true ∧
      ((c3self.map Prod.fst).all fun k =>
        decide (pyLookup c3self k = pyLookup c3other k)) = true ∧
      ((c3other.map Prod.fst).all fun k =>
        decide (pyLookup c3self k = pyLookup c3other k)) = true ∧
      dictOfPandas_eq c3self (.dictLike c3other) false = false := by
  decide

/-- C8: against a comparand that is neither a dict nor a SliceDict the
container's `__eq__` returns `false` — the embedded function is a total
boolean function, it neither raises nor defers with `NotImplemented` —
while identity comparison (`self is other`) returns `true` for every
comparand. -/
theorem C8_eq_nondict_false_identity_true :
    (∀ self : List (PKey × PdVal),
        dictOfPandas_eq self .notDict false = false) ∧
      (∀ (self : List (PKey × PdVal)) (o : EqOther),
        dictOfPandas_eq self o true = true) :=
  ⟨fun _ => rfl, fun _ _ => rfl⟩

/-- C10: `DictOfPandas.empty` is true iff the container has no items or all
its items are empty; in particular a container holding only empty values is
`empty` although its length is nonzero. -/
theorem C10_empty_iff :
    (∀ c : List (PKey × PdVal),
        dictOfPandas_empty c = true ↔ c = [] ∨ ∀ p ∈ c, pdEmpty p.2 = true) ∧
      dictOfPandas_empty
          [(.str "a", .series ⟨[], ⟨[], .int64, none, none⟩, .float64, none⟩)]
        = true
      ∧ [(PKey.str "a",
          PdVal.series ⟨[], ⟨[], .int64, none, none⟩, .float64, none⟩)].length
        ≠ 0 := by
  refine ⟨fun c => ?_, by decide, by decide⟩
  simp [dictOfPandas_empty, List.all_eq_true, List.length_eq_zero]

/-! ## Label algebra claims -/

/-- mem_pdIndexUnion: membership in the modelled index union. -/
theorem mem_pdIndexUnion {x : Int} {a b : List Int} :
    x ∈ pdIndexUnion a b ↔ x ∈ a ∨ x ∈ b := by
  simp only [pdIndexUnion, List.mem_append, List.mem_filter,
    decide_eq_true_eq]
  by_cases hx : x ∈ a <;> simp [hx]

/-- mem_pdIndexInter: membership in the modelled index intersection. -/
theorem mem_pdIndexInter {x : Int} {a b : List Int} :
    x ∈ pdIndexInter a b ↔ x ∈ a ∧ x ∈ b := by
  simp [pdIndexInter, List.mem_filter]

/-- foldl_union_mem_acc: a union fold keeps every accumulator label. -/
theorem foldl_union_mem_acc (ls : List (List Int)) :
    ∀ (acc : List Int) (x : Int), x ∈ acc → x ∈ ls.foldl pdIndexUnion acc := by
  induction ls with
  | nil => intro acc x h; exact h
  | cons l ls ih =>
    intro acc x h
    exact ih _ _ (mem_pdIndexUnion.mpr (Or.inl h))

/-- foldl_union_mem: a union fold keeps every label of every folded list. -/
theorem foldl_union_mem (ls : List (List Int)) :
    ∀ (acc l : List Int) (x : Int), l ∈ ls → x ∈ l →
      x ∈ ls.foldl pdIndexUnion acc := by
  induction ls with
  | nil => intro acc l x h _; exact absurd h (List.not_mem_nil _)
  | cons hd tl ih =>
    intro acc l x hmem hx
    rcases List.mem_cons.mp hmem with h | h
    · exact foldl_union_mem_acc tl _ x (mem_pdIndexUnion.mpr (Or.inr (h ▸ hx)))
    · exact ih _ l x h hx

/-- foldl_inter_mem_acc: an intersection fold only keeps accumulator
labels. -/
theorem foldl_inter_mem_acc (ls : List (List Int)) :
    ∀ (acc : List Int) (x : Int), x ∈ ls.foldl pdIndexInter acc → x ∈ acc := by
  induction ls with
  | nil => intro acc x h; exact h
  | cons l ls ih =>
    intro acc x h
    exact (mem_pdIndexInter.mp (ih _ x h)).1

/-- foldl_inter_mem: an intersection fold only keeps labels present in every
folded list. -/
theorem foldl_inter_mem (ls : List (List Int)) :
    ∀ (acc l : List Int) (x : Int), l ∈ ls →
      x ∈ ls.foldl pdIndexInter acc → x ∈ l := by
  induction ls with
  | nil => intro acc l x h _; exact absurd h (List.not_mem_nil _)
  | cons hd tl ih =>
    intro acc l x hmem hx
    rcases List.mem_cons.mp hmem with h | h
    · subst h; exact (mem_pdIndexInter.mp (foldl_inter_mem_acc tl _ x hx)).2
    · exact ih _ l x h hx

/-- C6: for every container, `union_index` contains every individual value's
labels, `shared_index` is contained in every individual value's labels, and
both return an empty label sequence on a container with zero values. -/
theorem C6_union_shared_bounds (c : List (PKey × PdVal)) :
    (∀ l ∈ get_indexes c, ∀ x ∈ l, x ∈ union_index c) ∧
      (∀ l ∈ get_indexes c, ∀ x ∈ shared_index c, x ∈ l) ∧
      (c = [] → union_index c = [] ∧ shared_index c = []) := by
  refine ⟨?_, ?_, ?_⟩
  · intro l hl x hx
    unfold union_index
    cases hgi : get_indexes c with
    | nil => rw [hgi] at hl; exact absurd hl (List.not_mem_nil _)
    | cons hd tl =>
      rw [hgi] at hl
      rcases List.mem_cons.mp hl with h | h
      · exact foldl_union_mem_acc tl hd x (h ▸ hx)
      · exact foldl_union_mem tl hd l x h hx
  · intro l hl x hx
    unfold shared_index at hx
    cases hgi : get_indexes c with
    | nil => rw [hgi] at hl; exact absurd hl (List.not_mem_nil _)
    | cons hd tl =>
      rw [hgi] at hl hx
      rcases List.mem_cons.mp hl with h | h
      · exact h ▸ foldl_inter_mem_acc tl hd x hx
      · exact foldl_inter_mem tl hd l x h hx
  · intro hc
    subst hc
    exact ⟨rfl, rfl⟩

/-- wUnionC is a sample container whose two values have overlapping
labels. -/
def wUnionC : List (PKey × PdVal) :=
  [(.str "a", .idx ⟨[0, 1], .int64, none, none⟩),
   (.str "b", .series ⟨[5, 5], ⟨[1, 2], .int64, none, none⟩, .int64, none⟩)]

/-- C6 witness: on the sample container, label 0 of the first value lands in
the union, the label 1 found in the shared index belongs to the second
value's labels, and on the empty container both operations return the empty
sequence. -/
theorem C6_union_shared_bounds_witness :
    (0 : Int) ∈ union_index wUnionC
      ∧ (1 : Int) ∈ ([1, 2] : List Int)
      ∧ (union_index ([] : List (PKey × PdVal)) = []
          ∧ shared_index ([] : List (PKey × PdVal)) = []) :=
  ⟨(C6_union_shared_bounds wUnionC).1 [0, 1] (by decide) 0 (by decide),
   (C6_union_shared_bounds wUnionC).2.1 [1, 2] (by decide) 1 (by decide),
   (C6_union_shared_bounds ([] : List (PKey × PdVal))).2.2 rfl⟩

/-! ## Formatter claims -/

/-- splitNlChars_sep: splitting a list that starts with a newline-free
segment followed by a separator peels off that segment. -/
theorem splitNlChars_sep (rest : List Char) :
    ∀ l : List Char, '\n' ∉ l →
      splitNlChars (l ++ '\n' :: rest) = l :: splitNlChars rest := by
  intro l
  induction l with
  | nil => intro _; simp [splitNlChars]
  | cons c cs ih =>
    intro h
    have hc : ¬ (c = '\n') := fun hh => h (hh ▸ List.mem_cons_self c cs)
    have h' : '\n' ∉ cs := fun hh => h (List.mem_cons_of_mem c hh)
    show splitNlChars (c :: (cs ++ '\n' :: rest)) = (c :: cs) :: splitNlChars rest
    rw [splitNlChars, if_neg hc, ih h']

/-- pySplitlinesChars_three: a three-line newline-terminated text splits
into its three lines (the trailing newline adds none). -/
theorem pySplitlinesChars_three (l1 l2 l3 : List Char)
    (h1 : '\n' ∉ l1) (h2 : '\n' ∉ l2) (h3 : '\n' ∉ l3) :
    pySplitlinesChars (l1 ++ '\n' :: (l2 ++ '\n' :: (l3 ++ ['\n'])))
      = [l1, l2, l3] := by
  unfold pySplitlinesChars
  rw [splitNlChars_sep _ _ h1, splitNlChars_sep _ _ h2, splitNlChars_sep _ _ h3]
  rfl

/-- pyJustifyLeft_three: left-justifying a three-line newline-terminated
text yields the three lines, each padded on the right, joined by single
newlines. -/
theorem pyJustifyLeft_three (a b c : String)
    (ha : '\n' ∉ a.data) (hb : '\n' ∉ b.data) (hc : '\n' ∉ c.data) :
    ∃ p1 p2 p3 : List Char,
      (pyJustifyLeft (a ++ "\n" ++ b ++ "\n" ++ c ++ "\n")).data
        = (a.data ++ p1) ++ '\n' :: ((b.data ++ p2) ++ '\n' :: (c.data ++ p3)) := by
  have hsplit : pySplitlines (a ++ "\n" ++ b ++ "\n" ++ c ++ "\n") = [a, b, c] := by
    unfold pySplitlines
    rw [show (a ++ "\n" ++ b ++ "\n" ++ c ++ "\n").data
        = a.data ++ '\n' :: (b.data ++ '\n' :: (c.data ++ ['\n'])) from by
      simp [String.data_append]]
    rw [pySplitlinesChars_three _ _ _ ha hb hc]
    rfl
  unfold pyJustifyLeft
  rw [hsplit]
  refine ⟨(spacesStr (maxLen [a, b, c] - a.length)).data,
    (spacesStr (maxLen [a, b, c] - b.length)).data,
    (spacesStr (maxLen [a, b, c] - c.length)).data, ?_⟩
  show (pyJoinNl [pyLjust a _, pyLjust b _, pyLjust c _]).data = _
  simp [pyJoinNl, pyLjust, String.data_append, List.append_assoc]

/-- C7 (amended): the per-value stringification of empty values renders
"Empty Series" plus its (necessarily zero) row count for an empty Vector,
"Empty DataFrame" plus both the row count and the column count for an empty
Table, but the bare "Empty Index" with NO shape metadata for an empty
Label-Sequence value. -/
theorem C7_empty_value_rendering (ext : ExtRender) :
    (∀ s : PSeries, s.values = [] →
        stringify ext (.series s) = "Empty Series\n rows: 0    ")
      ∧ (∀ f : PDataFrame, pdEmpty (.frame f) = true →
          ∃ p1 p2 p3 : List Char,
            (stringify ext (.frame f)).data
              = ("Empty DataFrame".data ++ p1) ++ '\n' ::
                  (((" rows:    " ++ Nat.repr f.index.labels.length).data ++ p2)
                    ++ '\n' ::
                      ((" columns: " ++ Nat.repr f.columns.labels.length).data
                        ++ p3)))
      ∧ (∀ i : PIndex, i.labels = [] → stringify ext (.idx i) = "Empty Index") := by
  refine ⟨?_, ?_, ?_⟩
  · intro s hs
    have h1 : pdEmpty (.series s) = true := by simp [pdEmpty, hs]
    show stringify_Series ext s = _
    unfold stringify_Series
    rw [if_pos h1, hs]
    rfl
  · intro f hf
    have hR : '\n' ∉ (" rows:    " ++ Nat.repr f.index.labels.length).data := by
      rw [String.data_append]
      intro hmem
      rcases List.mem_append.mp hmem with h | h
      · exact absurd h (by decide)
      · exact natRepr_no_nl _ h
    have hC : '\n' ∉ (" columns: " ++ Nat.repr f.columns.labels.length).data := by
      rw [String.data_append]
      intro hmem
      rcases List.mem_append.mp hmem with h | h
      · exact absurd h (by decide)
      · exact natRepr_no_nl _ h
    have hst : stringify ext (.frame f)
        = pyJustifyLeft ("Empty DataFrame" ++ "\n"
            ++ (" rows:    " ++ Nat.repr f.index.labels.length) ++ "\n"
            ++ (" columns: " ++ Nat.repr f.columns.labels.length) ++ "\n") := by
      show stringify_DataFrame ext f = _
      unfold stringify_DataFrame
      rw [if_pos hf,
        show stringify_empty_class (.frame f) = "Empty DataFrame" from rfl]
    rw [hst]
    exact pyJustifyLeft_three "Empty DataFrame"
      (" rows:    " ++ Nat.repr f.index.labels.length)
      (" columns: " ++ Nat.repr f.columns.labels.length) (by decide) hR hC
  · intro i hi
    have h1 : pdEmpty (.idx i) = true := by simp [pdEmpty, hi]
    show stringify_Index ext i = _
    unfold stringify_Index
    rw [if_pos h1]
    rfl

/-- C7 counterexample: the claim asserts an empty Label-Sequence value
renders as "Empty Index" PLUS a row count; but `_stringify_Index` returns
the bare class banner, whose text contains no digit at all, so no row count
is reported. -/
theorem C7_counterexample :
    stringify extZero (.idx ⟨[], .int64, none, none⟩) = "Empty Index"
      ∧ ("Empty Index".data.all fun ch => !ch.isDigit) = true := by
  exact ⟨rfl, by decide⟩

/-- wEmptyFrame is an empty DataFrame (no rows) that still has two
columns. -/
def wEmptyFrame : PDataFrame :=
  ⟨[], ⟨[], .int64, none, none⟩, ⟨[5, 6], .int64, none, none⟩,
   [.int64, .int64]⟩

/-- C7 witness: the amended rendering statement instantiated on a concrete
empty Series, a concrete empty DataFrame of shape (0, 2), and a concrete
empty Index. -/
theorem C7_empty_value_rendering_witness :
    ((PSeries.mk [] ⟨[], .int64, none, none⟩ .float64 none).values = []
        ∧ pdEmpty (.frame wEmptyFrame) = true
        ∧ (PIndex.mk [] .int64 none none).labels = [])
      ∧ stringify extZero
            (.series ⟨[], ⟨[], .int64, none, none⟩, .float64, none⟩)
          = "Empty Series\n rows: 0    "
      ∧ (∃ p1 p2 p3 : List Char,
          (stringify extZero (.frame wEmptyFrame)).data
            = ("Empty DataFrame".data ++ p1) ++ '\n' ::
                (((" rows:    " ++ Nat.repr wEmptyFrame.index.labels.length).data
                    ++ p2) ++ '\n' ::
                  ((" columns: "
                      ++ Nat.repr wEmptyFrame.columns.labels.length).data
                    ++ p3)))
      ∧ stringify extZero (.idx ⟨[], .int64, none, none⟩) = "Empty Index" :=
  ⟨⟨rfl, rfl, rfl⟩,
   (C7_empty_value_rendering extZero).1 _ rfl,
   (C7_empty_value_rendering extZero).2.1 wEmptyFrame rfl,
   (C7_empty_value_rendering extZero).2.2 _ rfl⟩

/-- pyDictSet_not_mem is proved above; pyDictSet_mem_keys: setting a key
already present leaves the key sequence unchanged (the value is replaced in
place). -/
theorem pyDictSet_mem_keys {K V : Type} [DecidableEq K]
    (d : List (K × V)) (k : K) (v : V) (h : k ∈ d.map Prod.fst) :
    (pyDictSet d k v).map Prod.fst = d.map Prod.fst := by
  obtain ⟨p, hp, hpk⟩ := List.mem_map.mp h
  unfold pyDictSet
  rw [if_pos (List.any_eq_true.mpr ⟨p, hp, by simp [hpk]⟩)]
  rw [List.map_map]
  apply List.map_congr_left
  intro q _
  by_cases hq : q.1 = k <;> simp [hq]

/-- pyDictSet_keys_nodup: dictionary insertion keeps the keys
duplicate-free. -/
theorem pyDictSet_keys_nodup {K V : Type} [DecidableEq K]
    (d : List (K × V)) (k : K) (v : V) (h : (d.map Prod.fst).Nodup) :
    ((pyDictSet d k v).map Prod.fst).Nodup := by
  by_cases hk : k ∈ d.map Prod.fst
  · rw [pyDictSet_mem_keys d k v hk]; exact h
  · rw [pyDictSet_not_mem d k v hk]
    simp only [List.map_append, List.nodup_append]
    refine ⟨h, by simp, ?_⟩
    intro x hx
    simp only [List.map_cons, List.map_nil, List.mem_singleton]
    intro hxk
    exact hk (by simpa [hxk] using hx)

/-- pyDictSet_length_le: dictionary insertion grows the entry count by at
most one. -/
theorem pyDictSet_length_le {K V : Type} [DecidableEq K]
    (d : List (K × V)) (k : K) (v : V) :
    (pyDictSet d k v).length ≤ d.length + 1 := by
  unfold pyDictSet
  split
  · simp
  · simp

/-- pyDictGet_set_self: after `d[k] = v`, looking up `k` yields `v` — in
particular a second store under the same key overwrites the first. -/
theorem pyDictGet_set_self {K V : Type} [DecidableEq K] :
    ∀ (d : List (K × V)) (k : K) (v : V),
      pyDictGet (pyDictSet d k v) k = some v := by
  intro d
  induction d with
  | nil => intro k v; simp [pyDictSet, pyDictGet]
  | cons p rest ih =>
    intro k v
    by_cases hp : p.1 = k
    · unfold pyDictSet
      rw [if_pos (by simp [List.any_cons, hp])]
      unfold pyDictGet
      simp [List.find?_cons, hp]
    · have hstep : pyDictSet (p :: rest) k v = p :: pyDictSet rest k v := by
        unfold pyDictSet
        by_cases hr : rest.any (fun q => decide (q.1 = k))
        · rw [if_pos (by simp [List.any_cons, hr]), if_pos hr]
          simp [hp]
        · rw [if_neg (by simp [List.any_cons, hp, hr]), if_neg hr]
          rfl
      rw [hstep]
      have hrec := ih k v
      unfold pyDictGet at hrec ⊢
      rw [List.find?_cons]
      simpa [hp] using hrec

/-- collectObjectsAux_nodup_len: the `objects` dict built by the formatter's
collection loop has duplicate-free keys and at most one entry per container
item (plus whatever the starting dict held). -/
theorem collectObjectsAux_nodup_len (ext : ExtRender) :
    ∀ (items : List (PKey × PdVal)) (objs : List (String × List String))
      (wids : List (String × Nat)),
      (objs.map Prod.fst).Nodup →
      ((collectObjectsAux ext items objs wids).1.map Prod.fst).Nodup
        ∧ (collectObjectsAux ext items objs wids).1.length
          ≤ objs.length + items.length := by
  intro items
  induction items with
  | nil => intro objs wids h; exact ⟨h, by simp [collectObjectsAux]⟩
  | cons p rest ih =>
    intro objs wids h
    rw [collectObjectsAux]
    have h' := pyDictSet_keys_nodup objs (pkeyStr p.1)
      (pySplitlines (stringify ext p.2)) h
    obtain ⟨ha, hb⟩ := ih _ _ h'
    refine ⟨ha, le_trans hb ?_⟩
    have := pyDictSet_length_le objs (pkeyStr p.1)
      (pySplitlines (stringify ext p.2))
    simp only [List.length_cons]
    omega

/-- collectObjectsAux_append: the collection loop over a concatenation is
the loop over the first part continued over the second. -/
theorem collectObjectsAux_append (ext : ExtRender) :
    ∀ (l1 l2 : List (PKey × PdVal)) (objs : List (String × List String))
      (wids : List (String × Nat)),
      collectObjectsAux ext (l1 ++ l2) objs wids
        = collectObjectsAux ext l2 (collectObjectsAux ext l1 objs wids).1
            (collectObjectsAux ext l1 objs wids).2 := by
  intro l1
  induction l1 with
  | nil => intro l2 objs wids; rfl
  | cons p rest ih =>
    intro l2 objs wids
    rw [List.cons_append, collectObjectsAux, collectObjectsAux]
    exact ih l2 _ _

/-- wIdxEmpty is an empty Index value. -/
def wIdxEmpty : PdVal := .idx ⟨[], .int64, none, none⟩

/-- wSerEmpty is an empty Series value. -/
def wSerEmpty : PdVal := .series ⟨[], ⟨[], .int64, none, none⟩, .float64, none⟩

/-- exDup is a container holding two DISTINCT keys — the integer `1` and the
string `"1"` — whose `str()` forms coincide. -/
def exDup : List (PKey × PdVal) := [(.int 1, wIdxEmpty), (.str "1", wSerEmpty)]

/-- C9: the formatter's `objects` dict is keyed by the stringified key, so
(a) its keys are duplicate-free and it never has more columns than the
container has entries; (b) appending two entries whose distinct keys share
one string leaves that string bound to the LATER entry's rendered lines;
and (c) on a concrete two-entry container whose keys `1` and `"1"` collide,
the full rendering shows exactly one column — the later, Series-valued
entry — although the container has two entries. -/
theorem C9_duplicate_stringified_keys :
    (∀ (ext : ExtRender) (items : List (PKey × PdVal)),
        ((collectObjects ext items).1.map Prod.fst).Nodup
          ∧ (collectObjects ext items).1.length ≤ items.length)
      ∧ (∀ (ext : ExtRender) (items : List (PKey × PdVal)) (k1 k2 : PKey)
          (v1 v2 : PdVal), pkeyStr k1 = pkeyStr k2 →
          pyDictGet (collectObjects ext (items ++ [(k1, v1), (k2, v2)])).1
              (pkeyStr k1)
            = some (pySplitlines (stringify ext v2)))
      ∧ (formatter_to_string extZero 64 exDup
            = "           1 | \n============ | \nEmpty Series | \n rows: 0     | \n"
          ∧ (collectObjects extZero exDup).1.length = 1
          ∧ exDup.length = 2) := by
  refine ⟨?_, ?_, by decide, by decide, by decide⟩
  · intro ext items
    have h := collectObjectsAux_nodup_len ext items [] [] (by simp)
    exact ⟨h.1, by simpa using h.2⟩
  · intro ext items k1 k2 v1 v2 hk
    unfold collectObjects
    rw [collectObjectsAux_append]
    rw [collectObjectsAux, collectObjectsAux, collectObjectsAux]
    rw [hk]
    exact pyDictGet_set_self _ _ _

/-- C9 witness: the integer key `1` and the string key `"1"` stringify
identically, and after collecting a container that ends with those two
entries the shared column holds the later entry's lines. -/
theorem C9_duplicate_stringified_keys_witness :
    pkeyStr (.int 1) = pkeyStr (.str "1")
      ∧ pyDictGet
          (collectObjects extZero
            ([] ++ [((PKey.int 1), wIdxEmpty), ((PKey.str "1"), wSerEmpty)])).1
          (pkeyStr (.int 1))
        = some (pySplitlines (stringify extZero wSerEmpty)) :=
  ⟨rfl,
   C9_duplicate_stringified_keys.2.1 extZero [] (.int 1) (.str "1")
     wIdxEmpty wSerEmpty rfl⟩
